import Mathlib

/-!
Verification of the Flask transcription starter backend (src/app.py).

The HTTP layer is embedded shallowly: a request is a record of the
fields the handler reads; the Deepgram SDK client is a parameter
(a function from the outbound call description to a result); Python
exceptions become an `Exn` sum; `jsonify` bodies become a `Json` tree.
Numeric payload values (word timings, duration) are carried as `Int`
since the code never computes with them, only copies them.
-/

namespace FlaskTranscription

/-- JSON values, as produced by Flask's jsonify.  Object fields keep
insertion order, matching Python dict semantics. -/
inductive Json where
  | null
  | str (s : String)
  | num (n : Int)
  | obj (fields : List (String × Json))
  | arr (items : List Json)
deriving Repr

/-- Field lookup in a JSON object (none on non-objects). -/
def Json.lookup (j : Json) (k : String) : Option Json :=
  match j with
  | Json.obj fs => fs.lookup k
  | _ => none

/-- The keys of a JSON object, in order (empty on non-objects). -/
def Json.keys (j : Json) : List String :=
  match j with
  | Json.obj fs => fs.map Prod.fst
  | _ => []

/-- Whether a JSON value is a string. -/
def Json.isStr (j : Json) : Bool :=
  match j with
  | Json.str _ => true
  | _ => false

/-- Python exceptions relevant to app.py: the handler distinguishes
ValueError (caught as 400) from every other exception (caught as 500). -/
inductive Exn where
  | valueError (msg : String)
  | indexError (msg : String)
  | other (msg : String)
deriving Repr, DecidableEq

/-- A Werkzeug FileStorage from request.files.  Its Python truthiness is
bool(self.filename), so the filename is part of the model. -/
structure FileObj where
  filename : String
  content : List Nat
deriving Repr, DecidableEq

/-- Python truthiness of an optional string (request.form.get "url"):
None and the empty string are falsy. -/
def strTruthy : Option String → Bool
  | none => false
  | some s => s != ""

/-- Python truthiness of an optional FileStorage (request.files.get "file"):
None is falsy, and FileStorage.__bool__ is bool(self.filename). -/
def fileTruthy : Option FileObj → Bool
  | none => false
  | some f => f.filename != ""

/-- A word entry of a Deepgram alternative.  `speaker` is optional:
none models both a missing attribute and a None value (the code maps
either to JSON null).  `end` is a Lean keyword, hence `end_`. -/
structure Word where
  word : String
  start : Int
  end_ : Int
  speaker : Option Int
deriving Repr, DecidableEq

/-- One alternative of a Deepgram channel. -/
structure Alt where
  transcript : Option String
  words : Option (List Word)
deriving Repr, DecidableEq

/-- One channel of the Deepgram results. -/
structure Channel where
  alternatives : List Alt
deriving Repr, DecidableEq

/-- The results section of a Deepgram response. -/
structure Results where
  channels : List Channel
deriving Repr, DecidableEq

/-- The metadata section of a Deepgram response; each field is optional,
modelling the hasattr checks in format_transcription_response. -/
structure Metadata where
  model_uuid : Option String
  request_id : Option String
  duration : Option Int
deriving Repr, DecidableEq

/-- A raw Deepgram API response (the value transcribe_audio returns). -/
structure DGResponse where
  results : Results
  metadata : Option Metadata
deriving Repr, DecidableEq

/-- Deepgram SDK alternative objects define neither __bool__ nor __len__,
so `not result` on line 149 of app.py is always False; the check is kept
to mirror the source. -/
def altTruthy (_ : Alt) : Bool := true

/-- app.py line 31: default transcription model. -/
def DEFAULT_MODEL : String := "nova-3"

/-- The validated input: either a URL or a file (app.py lines 81-101
return {"type": "url"|"file", "data": ...}). -/
inductive InputData where
  | url (u : String)
  | file (f : FileObj)
deriving Repr, DecidableEq

/-- app.py lines 81-101: `if url: ... if file: ... return None`. -/
def validate_transcription_input (file : Option FileObj) (url : Option String) :
    Option InputData :=
  if strTruthy url then
    match url with
    | some u => some (InputData.url u)
    | none => none
  else if fileTruthy file then
    match file with
    | some f => some (InputData.file f)
    | none => none
  else
    none

/-- The outbound call transcribe_audio makes to the Deepgram SDK
(app.py lines 103-132): either transcribe_url or transcribe_file,
each with the model name and smart_format=True. -/
inductive ProviderCall where
  | url (u : String) (model : String) (smart_format : Bool)
  | file (content : List Nat) (model : String) (smart_format : Bool)
deriving Repr, DecidableEq

/-- app.py lines 103-132, as the call description sent to the SDK:
the URL branch passes the url, the file branch reads the file content. -/
def transcribe_audio_call (input_data : InputData) (model : String) : ProviderCall :=
  match input_data with
  | InputData.url u => ProviderCall.url u model true
  | InputData.file f => ProviderCall.file f.content model true

/-- The Deepgram client, abstracted: maps an outbound call to either a
raised exception or a response. -/
abbrev Provider := ProviderCall → Except Exn DGResponse

/-- Python `x or ""` on an optional string. -/
def pyOrEmpty : Option String → String
  | none => ""
  | some s => if s = "" then "" else s

/-- One output word object (app.py lines 160-165). -/
def formatWord (w : Word) : Json :=
  Json.obj [("text", Json.str w.word),
            ("start", Json.num w.start),
            ("end", Json.num w.end_),
            ("speaker", match w.speaker with
                        | some s => Json.num s
                        | none => Json.null)]

/-- An optional string rendered as JSON (None becomes null). -/
def optStrJson : Option String → Json
  | none => Json.null
  | some s => Json.str s

/-- app.py lines 134-179.  Indexing channels[0].alternatives[0] raises
IndexError on an empty list; the `if not result` ValueError branch is
mirrored though unreachable (see altTruthy). -/
def format_transcription_response (transcription_response : DGResponse)
    (model_name : String) : Except Exn Json :=
  match transcription_response.results.channels with
  | [] => Except.error (Exn.indexError "list index out of range")
  | ch :: _ =>
    match ch.alternatives with
    | [] => Except.error (Exn.indexError "list index out of range")
    | result :: _ =>
      let metadata := transcription_response.metadata
      if altTruthy result = false then
        Except.error (Exn.valueError "No transcription results returned from Deepgram")
      else
        let response := [("transcript", Json.str (pyOrEmpty result.transcript))]
        let response :=
          match result.words with
          | some ws =>
              if ws.isEmpty then response
              else response ++ [("words", Json.arr (ws.map formatWord))]
          | none => response
        let response :=
          match metadata with
          | some md =>
              match md.duration with
              | some d => response ++ [("duration", Json.num d)]
              | none => response
          | none => response
        let response := response ++
          [("metadata", Json.obj
            [("model_uuid", optStrJson (metadata.bind Metadata.model_uuid)),
             ("request_id", optStrJson (metadata.bind Metadata.request_id)),
             ("model_name", Json.str model_name)])]
        Except.ok (Json.obj response)

/-- app.py lines 181-201: the error body is chosen by status code alone;
the error argument is never read. -/
def format_error_response (error : Exn) (status_code : Nat) : Json × Nat :=
  let fields :=
    if status_code == 400 then
      ("ValidationError", "INVALID_INPUT",
       "The request is invalid. Please check your input and try again.")
    else
      ("TranscriptionError", "TRANSCRIPTION_FAILED",
       "Transcription failed. Please try again.")
  (Json.obj [("error", Json.obj
      [("type", Json.str fields.1),
       ("code", Json.str fields.2.1),
       ("message", Json.str fields.2.2)])],
   status_code)

/-- The fields the POST /api/transcription handler reads from the request. -/
structure TranscribeRequest where
  file : Option FileObj
  url : Option String
  model : Option String
deriving Repr, DecidableEq

/-- app.py lines 207-264, POST /api/transcription.  Returns the JSON body
and status, plus the list of outbound SDK calls made during the request.
`except ValueError` maps to 400, `except Exception` to 500, whether the
exception came from the provider call or from response formatting. -/
def transcribe (provider : Provider) (req : TranscribeRequest) :
    (Json × Nat) × List ProviderCall :=
  let file := req.file
  let url := req.url
  let model := req.model.getD DEFAULT_MODEL
  match validate_transcription_input file url with
  | none =>
      (format_error_response
        (Exn.valueError "Either file or url must be provided") 400, [])
  | some input_data =>
      let call := transcribe_audio_call input_data model
      match provider call with
      | Except.error e =>
          match e with
          | Exn.valueError _ => (format_error_response e 400, [call])
          | _ => (format_error_response e 500, [call])
      | Except.ok transcription_response =>
          match format_transcription_response transcription_response model with
          | Except.ok formatted_response => ((formatted_response, 200), [call])
          | Except.error e =>
              match e with
              | Exn.valueError _ => (format_error_response e 400, [call])
              | _ => (format_error_response e 500, [call])

/-- The outcome of opening and parsing deepgram.toml in get_metadata. -/
inductive TomlRead where
  | notFound
  | readError (msg : String)
  | ok (config : List (String × Json))
deriving Repr

/-- app.py lines 266-298, GET /api/metadata: error bodies here map the
"error" key to a plain string, not to an object. -/
def get_metadata (t : TomlRead) : Json × Nat :=
  match t with
  | TomlRead.notFound =>
      (Json.obj [("error", Json.str "INTERNAL_SERVER_ERROR"),
                 ("message", Json.str "deepgram.toml file not found")], 500)
  | TomlRead.readError msg =>
      (Json.obj [("error", Json.str "INTERNAL_SERVER_ERROR"),
                 ("message",
                  Json.str ("Failed to read metadata from deepgram.toml: " ++ msg))],
       500)
  | TomlRead.ok config =>
      match config.lookup "meta" with
      | none =>
          (Json.obj [("error", Json.str "INTERNAL_SERVER_ERROR"),
                     ("message", Json.str "Missing [meta] section in deepgram.toml")],
           500)
      | some meta => (meta, 200)

/-- The spec's ErrorResponse shape: an object whose "error" key maps to
an object with string-valued "type", "code" and "message". -/
def errorResponseShape (j : Json) : Bool :=
  match j with
  | Json.obj fs =>
      match fs.lookup "error" with
      | some (Json.obj efs) =>
          (match efs.lookup "type" with | some v => v.isStr | none => false) &&
          (match efs.lookup "code" with | some v => v.isStr | none => false) &&
          (match efs.lookup "message" with | some v => v.isStr | none => false)
      | _ => false
  | _ => false

/-- Whether an outbound call is the file branch of transcribe_audio. -/
def ProviderCall.isFileCall : ProviderCall → Bool
  | ProviderCall.file _ _ _ => true
  | _ => false

/-- A provider standing in for a failing network: every call raises. -/
def sampleProvider : Provider := fun _ => Except.error (Exn.other "network unreachable")

/-- A minimal alternative: transcript only, no words. -/
def altHello : Alt := { transcript := some "hello world", words := none }

/-- A provider response with one channel, one alternative, no metadata. -/
def respHello : DGResponse :=
  { results := { channels := [{ alternatives := [altHello] }] }, metadata := none }

/-- A provider response whose first channel has no alternatives. -/
def respNoAlt : DGResponse :=
  { results := { channels := [{ alternatives := [] }] }, metadata := none }

/-- A sample uploaded file. -/
def sampleFile : FileObj := { filename := "a.wav", content := [1, 2, 3] }

/-- A sample word without speaker information. -/
def sampleWord : Word := { word := "hi", start := 0, end_ := 1, speaker := none }

/-! Helper lemmas shared by the claim theorems. -/

theorem validate_none_of_falsy (file : Option FileObj) (url : Option String)
    (hf : fileTruthy file = false) (hu : strTruthy url = false) :
    validate_transcription_input file url = none := by
  simp [validate_transcription_input, hf, hu]

theorem validate_url_of_nonempty (file : Option FileObj) (u : String) (hu : u ≠ "") :
    validate_transcription_input file (some u) = some (InputData.url u) := by
  simp [validate_transcription_input, strTruthy, hu]

theorem errorResponseShape_format_error_response (e : Exn) (sc : Nat) :
    errorResponseShape (format_error_response e sc).1 = true := rfl

/-- The status the except clauses of the handler assign to an exception:
except ValueError gives 400, except Exception gives 500 (app.py 255-264). -/
def exnStatus : Exn → Nat
  | Exn.valueError _ => 400
  | _ => 500

theorem transcribe_invalid_eq (provider : Provider) (req : TranscribeRequest)
    (hv : validate_transcription_input req.file req.url = none) :
    transcribe provider req
      = (format_error_response (Exn.valueError "Either file or url must be provided") 400,
         []) := by
  simp only [transcribe, hv]

theorem transcribe_raise_eq (provider : Provider) (req : TranscribeRequest)
    (input_data : InputData) (e : Exn)
    (hv : validate_transcription_input req.file req.url = some input_data)
    (hp : provider (transcribe_audio_call input_data (req.model.getD DEFAULT_MODEL))
            = Except.error e) :
    transcribe provider req
      = (format_error_response e (exnStatus e),
         [transcribe_audio_call input_data (req.model.getD DEFAULT_MODEL)]) := by
  simp only [transcribe, hv, hp]
  cases e <;> rfl

theorem transcribe_ok_eq (provider : Provider) (req : TranscribeRequest)
    (input_data : InputData) (r : DGResponse)
    (hv : validate_transcription_input req.file req.url = some input_data)
    (hp : provider (transcribe_audio_call input_data (req.model.getD DEFAULT_MODEL))
            = Except.ok r) :
    transcribe provider req
      = ((match format_transcription_response r (req.model.getD DEFAULT_MODEL) with
          | Except.ok b => (b, 200)
          | Except.error e => format_error_response e (exnStatus e)),
         [transcribe_audio_call input_data (req.model.getD DEFAULT_MODEL)]) := by
  simp only [transcribe, hv, hp]
  rcases hf : format_transcription_response r (req.model.getD DEFAULT_MODEL) with e | j
  · cases e <;> rfl
  · rfl

theorem transcribe_calls (provider : Provider) (req : TranscribeRequest)
    (input_data : InputData)
    (h : validate_transcription_input req.file req.url = some input_data) :
    (transcribe provider req).2
      = [transcribe_audio_call input_data (req.model.getD DEFAULT_MODEL)] := by
  rcases hp : provider (transcribe_audio_call input_data (req.model.getD DEFAULT_MODEL))
    with e | r
  · rw [transcribe_raise_eq provider req input_data e h hp]
  · rw [transcribe_ok_eq provider req input_data r h hp]

/-- C1: a POST /api/transcription request in which both the file and the url
form fields are absent or empty returns HTTP 400 with error.type equal to
ValidationError, and the provider client is never invoked (no outbound call). -/
theorem C1_missing_input_400_no_call (provider : Provider) (req : TranscribeRequest)
    (hf : fileTruthy req.file = false) (hu : strTruthy req.url = false) :
    (transcribe provider req).1.2 = 400 ∧
    ((transcribe provider req).1.1.lookup "error").bind (fun o => Json.lookup o "type")
        = some (Json.str "ValidationError") ∧
    (transcribe provider req).2 = [] := by
  have hv := validate_none_of_falsy req.file req.url hf hu
  rw [transcribe_invalid_eq provider req hv]
  exact ⟨rfl, rfl, rfl⟩

/-- Witness for C1 at a concrete request with neither field. -/
theorem C1_missing_input_400_no_call_witness :
    (transcribe sampleProvider { file := none, url := none, model := none }).1.2 = 400 ∧
    ((transcribe sampleProvider { file := none, url := none, model := none }).1.1.lookup
        "error").bind (fun o => Json.lookup o "type") = some (Json.str "ValidationError") ∧
    (transcribe sampleProvider { file := none, url := none, model := none }).2 = [] :=
  C1_missing_input_400_no_call sampleProvider { file := none, url := none, model := none }
    rfl rfl

/-- C2: a request supplying both a non-empty url and a file upload makes
exactly one outbound call, the URL call with that url; the file branch is
never taken. -/
theorem C2_url_precedence (provider : Provider) (f : FileObj) (u : String)
    (m : Option String) (hu : u ≠ "") :
    (transcribe provider { file := some f, url := some u, model := m }).2
        = [ProviderCall.url u (m.getD DEFAULT_MODEL) true] ∧
    ∀ c ∈ (transcribe provider { file := some f, url := some u, model := m }).2,
      c.isFileCall = false := by
  have hv := validate_url_of_nonempty (some f) u hu
  have hc := transcribe_calls provider { file := some f, url := some u, model := m }
    (InputData.url u) hv
  refine ⟨hc, ?_⟩
  intro c hcm
  rw [hc] at hcm
  simp only [transcribe_audio_call, List.mem_singleton] at hcm
  subst hcm
  rfl

/-- Witness for C2 at a concrete request carrying both fields. -/
theorem C2_url_precedence_witness :
    (transcribe sampleProvider
        { file := some sampleFile, url := some "https://example.com/a.wav",
          model := none }).2
      = [ProviderCall.url "https://example.com/a.wav"
          ((none : Option String).getD DEFAULT_MODEL) true] ∧
    ∀ c ∈ (transcribe sampleProvider
        { file := some sampleFile, url := some "https://example.com/a.wav",
          model := none }).2, c.isFileCall = false :=
  C2_url_precedence sampleProvider sampleFile "https://example.com/a.wav" none
    (by decide)

/-- C7: the error body built by format_error_response is independent of the
exception (the raw exception text never appears), and is one of two fixed
bodies determined solely by the status code. -/
theorem C7_error_body_fixed (e₁ e₂ : Exn) (sc : Nat) :
    format_error_response e₁ sc = format_error_response e₂ sc ∧
    format_error_response e₁ sc =
      (if sc == 400 then
        (Json.obj [("error", Json.obj
            [("type", Json.str "ValidationError"),
             ("code", Json.str "INVALID_INPUT"),
             ("message",
              Json.str "The request is invalid. Please check your input and try again.")])],
         sc)
       else
        (Json.obj [("error", Json.obj
            [("type", Json.str "TranscriptionError"),
             ("code", Json.str "TRANSCRIPTION_FAILED"),
             ("message", Json.str "Transcription failed. Please try again.")])],
         sc)) := by
  refine ⟨rfl, ?_⟩
  rcases h : sc == 400 with _ | _ <;> simp [format_error_response, h]

/-- C8 counterexample: the GET /api/metadata missing-file error response has
status 500 but its body maps "error" to the plain string
INTERNAL_SERVER_ERROR, not to an ErrorResponse object with type and code,
so the claim as stated is false for this endpoint. -/
theorem C8_counterexample :
    (get_metadata TomlRead.notFound).2 = 500 ∧
    errorResponseShape (get_metadata TomlRead.notFound).1 = false ∧
    Json.lookup (get_metadata TomlRead.notFound).1 "error"
      = some (Json.str "INTERNAL_SERVER_ERROR") :=
  ⟨rfl, rfl, rfl⟩

/-- C8 amended: every non-200 response of the transcription endpoint conforms
to the ErrorResponse shape, while the GET /api/metadata endpoint emits error
bodies whose "error" and "message" keys map to plain strings instead. -/
theorem C8_amended_error_shapes (provider : Provider) (req : TranscribeRequest)
    (t : TomlRead) :
    ((transcribe provider req).1.2 = 200 ∨
      errorResponseShape (transcribe provider req).1.1 = true) ∧
    ((get_metadata t).2 = 200 ∨
      ((Json.lookup (get_metadata t).1 "error").map Json.isStr = some true ∧
       (Json.lookup (get_metadata t).1 "message").map Json.isStr = some true)) := by
  constructor
  · rcases hv : validate_transcription_input req.file req.url with _ | d
    · right
      rw [transcribe_invalid_eq provider req hv]
      exact errorResponseShape_format_error_response
        (Exn.valueError "Either file or url must be provided") 400
    · rcases hp : provider (transcribe_audio_call d (req.model.getD DEFAULT_MODEL))
        with e | r
      · right
        rw [transcribe_raise_eq provider req d e hv hp]
        exact errorResponseShape_format_error_response e (exnStatus e)
      · rw [transcribe_ok_eq provider req d r hv hp]
        rcases hf : format_transcription_response r (req.model.getD DEFAULT_MODEL)
          with e | j
        · right
          exact errorResponseShape_format_error_response e (exnStatus e)
        · left
          rfl
  · rcases t with _ | msg | config
    · exact Or.inr ⟨rfl, rfl⟩
    · exact Or.inr ⟨rfl, rfl⟩
    · rcases hc : config.lookup "meta" with _ | meta
      · right
        simp only [get_metadata, hc]
        exact ⟨rfl, rfl⟩
      · left
        simp only [get_metadata, hc]

/-- C10: a url field present but equal to the empty string is treated exactly
as an absent url (validation falls through to the file field), and with no
file uploaded the request yields the HTTP 400 ValidationError response with
no outbound call. -/
theorem C10_empty_url_like_absent (provider : Provider) (m : Option String) :
    (∀ f : Option FileObj,
      validate_transcription_input f (some "") = validate_transcription_input f none) ∧
    (transcribe provider { file := none, url := some "", model := m }).1.2 = 400 ∧
    ((transcribe provider { file := none, url := some "", model := m }).1.1.lookup
        "error").bind (fun o => Json.lookup o "type") = some (Json.str "ValidationError") ∧
    (transcribe provider { file := none, url := some "", model := m }).2 = [] :=
  ⟨fun _ => rfl, rfl, rfl, rfl⟩

/-- C3 counterexample: for a provider response with a non-empty transcript and
no words or duration, the formatted metadata object still carries model_uuid
(and request_id) as explicit null placeholders, so the output does not contain
transcript and metadata.model_name only, refuting the claim as stated. -/
theorem C3_counterexample :
    ((format_transcription_response respHello "nova-3").toOption.bind
        (fun b => Json.lookup b "metadata")).bind (fun o => Json.lookup o "model_uuid")
      = some Json.null ∧
    ¬ (((format_transcription_response respHello "nova-3").toOption.bind
        (fun b => Json.lookup b "metadata")).map Json.keys = some ["model_name"]) := by
  refine ⟨rfl, ?_⟩
  intro h
  have h2 : ((format_transcription_response respHello "nova-3").toOption.bind
      (fun b => Json.lookup b "metadata")).map Json.keys
      = some ["model_uuid", "request_id", "model_name"] := rfl
  rw [h2] at h
  exact absurd h (by decide)

/-- C3 amended: for a provider response whose first alternative has a
non-empty transcript and carries no words and no duration, the success JSON
has exactly the top-level keys transcript and metadata (words and duration
omitted entirely), and the metadata object always carries model_uuid,
request_id and model_name, the first two as null placeholders when the
provider does not supply them. -/
theorem C3_amended_shape (chs : List Channel) (alts : List Alt) (t : String)
    (htne : t ≠ "") (wopt : Option (List Word))
    (hw : wopt = none ∨ wopt = some []) (md : Option Metadata)
    (hd : Option.bind md Metadata.duration = none) (model : String) :
    format_transcription_response
        { results := { channels := { alternatives :=
            { transcript := some t, words := wopt } :: alts } :: chs },
          metadata := md } model
      = Except.ok (Json.obj
          [("transcript", Json.str t),
           ("metadata", Json.obj
             [("model_uuid", optStrJson (Option.bind md Metadata.model_uuid)),
              ("request_id", optStrJson (Option.bind md Metadata.request_id)),
              ("model_name", Json.str model)])]) := by
  rcases md with _ | ⟨mu, ri, dur⟩
  · rcases hw with hw | hw <;> subst hw <;>
      simp [format_transcription_response, altTruthy, pyOrEmpty, htne]
  · have hdur : dur = none := by simpa using hd
    subst hdur
    rcases hw with hw | hw <;> subst hw <;>
      simp [format_transcription_response, altTruthy, pyOrEmpty, htne, optStrJson]

/-- Witness for C3 amended at a concrete response without optional fields. -/
theorem C3_amended_shape_witness :
    format_transcription_response respHello "nova-3"
      = Except.ok (Json.obj
          [("transcript", Json.str "hello world"),
           ("metadata", Json.obj
             [("model_uuid", Json.null),
              ("request_id", Json.null),
              ("model_name", Json.str "nova-3")])]) :=
  C3_amended_shape [] [] "hello world" (by decide) none (Or.inl rfl) none rfl "nova-3"

/-- C4: when the provider reports success but the first channel has no
alternatives, indexing raises and the endpoint returns HTTP 500 with
error.type TranscriptionError. -/
theorem C4_missing_alternative_500 (chs : List Channel) (md : Option Metadata)
    (f : Option FileObj) (u : String) (m : Option String) (hu : u ≠ "") :
    (transcribe
        (fun _ => Except.ok
          { results := { channels := { alternatives := [] } :: chs }, metadata := md })
        { file := f, url := some u, model := m }).1.2 = 500 ∧
    ((transcribe
        (fun _ => Except.ok
          { results := { channels := { alternatives := [] } :: chs }, metadata := md })
        { file := f, url := some u, model := m }).1.1.lookup "error").bind
      (fun o => Json.lookup o "type") = some (Json.str "TranscriptionError") := by
  have hv := validate_url_of_nonempty f u hu
  rw [transcribe_ok_eq _ { file := f, url := some u, model := m } (InputData.url u) _ hv rfl]
  exact ⟨rfl, rfl⟩

/-- Witness for C4 at a concrete URL request and empty-alternatives reply. -/
theorem C4_missing_alternative_500_witness :
    (transcribe (fun _ => Except.ok respNoAlt)
        { file := none, url := some "https://example.com/a.wav", model := none }).1.2
      = 500 ∧
    ((transcribe (fun _ => Except.ok respNoAlt)
        { file := none, url := some "https://example.com/a.wav", model := none
        }).1.1.lookup "error").bind (fun o => Json.lookup o "type")
      = some (Json.str "TranscriptionError") :=
  C4_missing_alternative_500 [] none none "https://example.com/a.wav" none (by decide)

/-- C5: when the provider response carries a non-empty words list, the output
words array is the per-word mapping, and every mapped word object has exactly
the four keys text, start, end, speaker, with text, start and end copied from
the provider word and speaker the provider value or an explicit null. -/
theorem C5_word_objects_shape (chs : List Channel) (alts : List Alt)
    (t : Option String) (w : Word) (ws : List Word) (md : Option Metadata)
    (model : String) :
    (format_transcription_response
        { results := { channels := { alternatives :=
            { transcript := t, words := some (w :: ws) } :: alts } :: chs },
          metadata := md } model).toOption.bind (fun b => Json.lookup b "words")
      = some (Json.arr ((w :: ws).map formatWord)) ∧
    ∀ x : Word,
      Json.keys (formatWord x) = ["text", "start", "end", "speaker"] ∧
      Json.lookup (formatWord x) "text" = some (Json.str x.word) ∧
      Json.lookup (formatWord x) "start" = some (Json.num x.start) ∧
      Json.lookup (formatWord x) "end" = some (Json.num x.end_) ∧
      Json.lookup (formatWord x) "speaker"
        = some (match x.speaker with
                | some s => Json.num s
                | none => Json.null) := by
  constructor
  · rcases md with _ | ⟨mu, ri, _ | d⟩ <;> rfl
  · intro x
    exact ⟨rfl, rfl, rfl, rfl, rfl⟩

/-- C6: a POST with a url and no model parameter makes the outbound URL call
with model nova-3 (the default) and smart_format true, and on a provider
success whose first channel has an alternative the response is HTTP 200 with
metadata.model_name echoing the default model string. -/
theorem C6_default_model_roundtrip (resp : DGResponse) (ch : Channel)
    (chs : List Channel) (alt : Alt) (alts : List Alt) (f : Option FileObj)
    (u : String) (hu : u ≠ "")
    (hch : resp.results.channels = ch :: chs)
    (halts : ch.alternatives = alt :: alts) :
    (transcribe (fun _ => Except.ok resp) { file := f, url := some u, model := none }).2
        = [ProviderCall.url u DEFAULT_MODEL true] ∧
    DEFAULT_MODEL = "nova-3" ∧
    (transcribe (fun _ => Except.ok resp)
        { file := f, url := some u, model := none }).1.2 = 200 ∧
    ((transcribe (fun _ => Except.ok resp)
        { file := f, url := some u, model := none }).1.1.lookup "metadata").bind
      (fun o => Json.lookup o "model_name") = some (Json.str "nova-3") := by
  obtain ⟨⟨chans⟩, md⟩ := resp
  obtain ⟨calts⟩ := ch
  change chans = _ at hch
  subst hch
  change calts = _ at halts
  subst halts
  obtain ⟨t, wopt⟩ := alt
  have hv := validate_url_of_nonempty f u hu
  rw [transcribe_ok_eq _ { file := f, url := some u, model := none } (InputData.url u)
    _ hv rfl]
  rcases wopt with _ | ws
  · rcases md with _ | ⟨mu, ri, _ | d⟩ <;> exact ⟨rfl, rfl, rfl, rfl⟩
  · rcases ws with _ | ⟨w, ws⟩ <;> rcases md with _ | ⟨mu, ri, _ | d⟩ <;>
      exact ⟨rfl, rfl, rfl, rfl⟩

/-- Witness for C6 at a concrete URL request and one-alternative reply. -/
theorem C6_default_model_roundtrip_witness :
    (transcribe (fun _ => Except.ok respHello)
        { file := none, url := some "https://example.com/a.wav", model := none }).2
        = [ProviderCall.url "https://example.com/a.wav" DEFAULT_MODEL true] ∧
    DEFAULT_MODEL = "nova-3" ∧
    (transcribe (fun _ => Except.ok respHello)
        { file := none, url := some "https://example.com/a.wav", model := none }).1.2
        = 200 ∧
    ((transcribe (fun _ => Except.ok respHello)
        { file := none, url := some "https://example.com/a.wav", model := none
        }).1.1.lookup "metadata").bind (fun o => Json.lookup o "model_name")
      = some (Json.str "nova-3") :=
  C6_default_model_roundtrip respHello { alternatives := [altHello] } [] altHello []
    none "https://example.com/a.wav" (by decide) rfl rfl

/-- C9: every success response of the endpoint carries a string transcript
key, equal to the Python expression transcript-or-empty, which is the empty
string whenever the provider transcript is absent or empty. -/
theorem C9_transcript_always_string (resp : DGResponse) (ch : Channel)
    (chs : List Channel) (alt : Alt) (alts : List Alt) (f : Option FileObj)
    (u : String) (m : Option String) (hu : u ≠ "")
    (hch : resp.results.channels = ch :: chs)
    (halts : ch.alternatives = alt :: alts) :
    (transcribe (fun _ => Except.ok resp) { file := f, url := some u, model := m }).1.2
        = 200 ∧
    Json.lookup
        (transcribe (fun _ => Except.ok resp)
          { file := f, url := some u, model := m }).1.1 "transcript"
      = some (Json.str (pyOrEmpty alt.transcript)) ∧
    ((alt.transcript = none ∨ alt.transcript = some "") → pyOrEmpty alt.transcript = "") := by
  obtain ⟨⟨chans⟩, md⟩ := resp
  obtain ⟨calts⟩ := ch
  change chans = _ at hch
  subst hch
  change calts = _ at halts
  subst halts
  obtain ⟨t, wopt⟩ := alt
  have hv := validate_url_of_nonempty f u hu
  rw [transcribe_ok_eq _ { file := f, url := some u, model := m } (InputData.url u)
    _ hv rfl]
  rcases wopt with _ | ws
  · rcases md with _ | ⟨mu, ri, _ | d⟩ <;>
      exact ⟨rfl, rfl, fun h => by
        rcases h with h | h <;> dsimp only at h <;> subst h <;> rfl⟩
  · rcases ws with _ | ⟨w, ws⟩ <;> rcases md with _ | ⟨mu, ri, _ | d⟩ <;>
      exact ⟨rfl, rfl, fun h => by
        rcases h with h | h <;> dsimp only at h <;> subst h <;> rfl⟩

/-- Witness for C9 at a concrete URL request and one-alternative reply. -/
theorem C9_transcript_always_string_witness :
    (transcribe (fun _ => Except.ok respHello)
        { file := none, url := some "https://example.com/a.wav", model := none }).1.2
        = 200 ∧
    Json.lookup
        (transcribe (fun _ => Except.ok respHello)
          { file := none, url := some "https://example.com/a.wav", model := none }).1.1
        "transcript"
      = some (Json.str (pyOrEmpty altHello.transcript)) ∧
    ((altHello.transcript = none ∨ altHello.transcript = some "") →
      pyOrEmpty altHello.transcript = "") :=
  C9_transcript_always_string respHello { alternatives := [altHello] } [] altHello []
    none "https://example.com/a.wav" none (by decide) rfl rfl

end FlaskTranscription
